import Mathlib

/-!
Shallow embedding of the order-event decode layer of the satoru-keeper
indexer (src/indexer/src/events/order.rs).

Modelling conventions:
- Rust String data is modelled as Lean String; event.data.split(',') is
  modelled by splitComma over the character list (Rust split keeps empty
  pieces and yields one empty piece for the empty string).
- Vec<Option<String>> indexing with .get(i) is modelled by List.get?.
- u64/i64/usize parses are modelled by Nat/Int-valued functions with the
  explicit range bound (2 ^ 64, 2 ^ 63) standing in for the machine width;
  Rust rejects mid-accumulation overflow, which for a non-negative digit
  fold is equivalent to checking the final value against the bound, since
  the accumulator is monotone.
- BigDecimal values produced by combine_u128 are plain naturals (the code
  only ever builds them from a u128 magnitude).
- The one panic-capable operation in the decode path, the unwrap of
  BigDecimal::from_str inside combine_u128, is made explicit in the P
  (panic-aware) variants, where an outer none models a panic.
-/

/-- Value of one hexadecimal digit character, as Rust char::to_digit(16). -/
def hexDigit? (c : Char) : Option Nat :=
  if '0' ≤ c ∧ c ≤ '9' then some (c.toNat - '0'.toNat)
  else if 'a' ≤ c ∧ c ≤ 'f' then some (c.toNat - 'a'.toNat + 10)
  else if 'A' ≤ c ∧ c ≤ 'F' then some (c.toNat - 'A'.toNat + 10)
  else none

/-- Value of one decimal digit character, as Rust char::to_digit(10). -/
def decDigit? (c : Char) : Option Nat :=
  if '0' ≤ c ∧ c ≤ '9' then some (c.toNat - '0'.toNat) else none

/-- One step of the digit-accumulation fold used by the integer parsers. -/
def stepDigit (dig : Char → Option Nat) (radix : Nat) (acc : Option Nat) (c : Char) : Option Nat :=
  match acc, dig c with
  | some a, some d => some (a * radix + d)
  | _, _ => none

/-- Value of a run of digit characters; none if any character is not a digit. -/
def digitsVal (dig : Char → Option Nat) (radix : Nat) (cs : List Char) : Option Nat :=
  cs.foldl (stepDigit dig radix) (some 0)

/-- Model of Rust u64::from_str_radix(s, 16): an optional leading plus sign,
then at least one hexadecimal digit; a value that does not fit in 64 bits is
an error (none). -/
def fromStrRadix16U64 (s : String) : Option Nat :=
  let cs := match s.data with
    | '+' :: rest => rest
    | cs => cs
  if cs.isEmpty then none
  else match digitsVal hexDigit? 16 cs with
    | some v => if v < 2 ^ 64 then some v else none
    | none => none

/-- Model of Rust i64::from_str_radix(s, 16): an optional sign, then at least
one hexadecimal digit; the magnitude must fit in a signed 64-bit integer. -/
def fromStrRadix16I64 (s : String) : Option Int :=
  match s.data with
  | '-' :: rest =>
    if rest.isEmpty then none
    else match digitsVal hexDigit? 16 rest with
      | some v => if v ≤ 2 ^ 63 then some (-(v : Int)) else none
      | none => none
  | '+' :: rest =>
    if rest.isEmpty then none
    else match digitsVal hexDigit? 16 rest with
      | some v => if v < 2 ^ 63 then some (v : Int) else none
      | none => none
  | cs =>
    if cs.isEmpty then none
    else match digitsVal hexDigit? 16 cs with
      | some v => if v < 2 ^ 63 then some (v : Int) else none
      | none => none

/-- Model of Rust str::parse::<usize>(): an optional leading plus sign, then
at least one DECIMAL digit; the value must fit in 64 bits (usize on the
64-bit targets the indexer runs on). This is the parser the source applies
to the swap_path length word. -/
def parseUsize (s : String) : Option Nat :=
  let cs := match s.data with
    | '+' :: rest => rest
    | cs => cs
  if cs.isEmpty then none
  else match digitsVal decDigit? 10 cs with
    | some v => if v < 2 ^ 64 then some v else none
    | none => none

/-- Decimal digits of n, least significant first (empty for 0). -/
def decDigitsRev (n : Nat) : List Char :=
  if h : n = 0 then []
  else Char.ofNat (n % 10 + 48) :: decDigitsRev (n / 10)
decreasing_by exact Nat.div_lt_self (Nat.pos_of_ne_zero h) (by omega)

/-- Model of Rust u128::to_string(): standard decimal rendering. -/
def natToDecString (n : Nat) : String :=
  if n = 0 then "0" else String.mk (decDigitsRev n).reverse

/-- Model of BigDecimal::from_str restricted to the plain digit strings the
decode path ever feeds it: at least one decimal digit, arbitrary precision
(no range bound). -/
def parseDecBig (s : String) : Option Nat :=
  if s.data.isEmpty then none else digitsVal decDigit? 10 s.data

/-- The order-type enum of order.rs. -/
inductive OrderType
  | MarketSwap
  | LimitSwap
  | MarketIncrease
  | LimitIncrease
  | MarketDecrease
  | LimitDecrease
  | StopLossDecrease
  | Liquidation
deriving DecidableEq

/-- OrderType::from_str (order.rs lines 51-63), with Result<_, ()> modelled
as Option: each canonical selector word maps to its variant, anything else
to none. -/
def OrderType.from_str (input : String) : Option OrderType :=
  if input = "0000000000000000000000000000000000000000000000000000000000000000" then some OrderType.MarketSwap
  else if input = "0000000000000000000000000000000000000000000000000000000000000001" then some OrderType.LimitSwap
  else if input = "0000000000000000000000000000000000000000000000000000000000000002" then some OrderType.MarketIncrease
  else if input = "0000000000000000000000000000000000000000000000000000000000000003" then some OrderType.LimitIncrease
  else if input = "0000000000000000000000000000000000000000000000000000000000000004" then some OrderType.MarketDecrease
  else if input = "0000000000000000000000000000000000000000000000000000000000000005" then some OrderType.LimitDecrease
  else if input = "0000000000000000000000000000000000000000000000000000000000000006" then some OrderType.StopLossDecrease
  else if input = "0000000000000000000000000000000000000000000000000000000000000007" then some OrderType.Liquidation
  else none

/-- The decrease-position swap-type enum of order.rs. -/
inductive DecreasePositionSwapType
  | NoSwap
  | SwapPnlTokenToCollateralToken
  | SwapCollateralTokenToPnlToken
deriving DecidableEq

/-- DecreasePositionSwapType::from_str (order.rs lines 76-83). -/
def DecreasePositionSwapType.from_str (input : String) : Option DecreasePositionSwapType :=
  if input = "0000000000000000000000000000000000000000000000000000000000000000" then some DecreasePositionSwapType.NoSwap
  else if input = "0000000000000000000000000000000000000000000000000000000000000001" then some DecreasePositionSwapType.SwapPnlTokenToCollateralToken
  else if input = "0000000000000000000000000000000000000000000000000000000000000002" then some DecreasePositionSwapType.SwapCollateralTokenToPnlToken
  else none

/-- The all-zero word and the word encoding 1, as matched by the boolean
field decode (order.rs lines 120-129). -/
def zeroWord : String := "0000000000000000000000000000000000000000000000000000000000000000"

def oneWord : String := "0000000000000000000000000000000000000000000000000000000000000001"

/-- The inline boolean word match of order.rs lines 120-129: the all-zero
word is false, the word encoding 1 is true, everything else is false. -/
def boolOfWord (v : String) : Bool :=
  if v = zeroWord then false
  else if v = oneWord then true
  else false

/-- Rust str::split(','): split at every comma, keeping empty pieces; the
empty string yields one empty piece. -/
def splitComma : List Char → List (List Char)
  | [] => [[]]
  | c :: rest =>
    if c = ',' then [] :: splitComma rest
    else match splitComma rest with
      | [] => [[c]]
      | w :: ws => (c :: w) :: ws

/-- The words of an event's data payload, in order. -/
def wordList (data : String) : List String :=
  (splitComma data.data).map String.mk

/-- data_parts of from_generic_event (order.rs line 93): every word wrapped
in Some. -/
def dataParts (data : String) : List (Option String) :=
  (wordList data).map some

/-- swap_path_len of from_generic_event (order.rs line 95): the word at
index 10 parsed as a DECIMAL usize, defaulting to 0 when the word is
missing or does not parse. -/
def swap_path_len (parts : List (Option String)) : Nat :=
  ((parts.get? 10).bind (fun s => s.bind parseUsize)).getD 0

/-- The fields of GenericEvent consumed by Order::from_generic_event.
(The GenericEvent struct itself lives in events/event.rs; the decoder uses
exactly these four fields.) -/
structure GenericEvent where
  block_number : Int
  timestamp : Option String
  transaction_hash : String
  data : String
deriving DecidableEq

/-- The Order typed record (order.rs lines 9-34). BigDecimal-valued fields
hold the u128 magnitude as a Nat. -/
structure Order where
  block_number : Int
  timestamp : Option String
  transaction_hash : String
  key : Option String
  order_type : Option OrderType
  decrease_position_swap_type : Option DecreasePositionSwapType
  account : Option String
  receiver : Option String
  callback_contract : Option String
  ui_fee_receiver : Option String
  market : Option String
  initial_collateral_token : Option String
  swap_path : Option (List String)
  size_delta_usd : Option Nat
  initial_collateral_delta_amount : Option Nat
  trigger_price : Option Nat
  acceptable_price : Option Nat
  execution_fee : Option Nat
  callback_gas_limit : Option Nat
  min_output_amount : Option Nat
  updated_at_block : Option Int
  is_long : Option Bool
  is_frozen : Option Bool
deriving DecidableEq

/-- combine_u128 (order.rs lines 176-186): both words must be present and
parse as 64-bit hexadecimal integers; the value is (high << 64) + low,
which cannot exceed 128 bits. The BigDecimal round-trip through
to_string/from_str is the identity (proved below for the panic-aware
variant), so the value is returned directly here. -/
def combine_u128 (high low : Option (Option String)) : Option Nat :=
  match high, low with
  | some (some h), some (some l) =>
    match fromStrRadix16U64 h, fromStrRadix16U64 l with
    | some hv, some lv => some (hv * 2 ^ 64 + lv)
    | _, _ => none
  | _, _ => none

/-- combine_u128 with the unwrap of BigDecimal::from_str made explicit: the
outer none models a panic of the unwrap, the inner option is the field
value. -/
def combine_u128P (high low : Option (Option String)) : Option (Option Nat) :=
  match high, low with
  | some (some h), some (some l) =>
    (match fromStrRadix16U64 h, fromStrRadix16U64 l with
     | some hv, some lv =>
       (match parseDecBig (natToDecString (hv * 2 ^ 64 + lv)) with
        | some v => some (some v)
        | none => none)
     | _, _ => some none)
  | _, _ => some none

/-- Order::from_generic_event (order.rs lines 92-131), field by field. -/
def from_generic_event (event : GenericEvent) : Order :=
  let parts := dataParts event.data
  let n := swap_path_len parts
  { block_number := event.block_number,
    timestamp := event.timestamp,
    transaction_hash := event.transaction_hash,
    key := (parts.get? 0).getD none,
    order_type := (parts.get? 2).bind (fun s => s.bind OrderType.from_str),
    decrease_position_swap_type := (parts.get? 3).bind (fun s => s.bind DecreasePositionSwapType.from_str),
    account := (parts.get? 4).getD none,
    receiver := (parts.get? 5).getD none,
    callback_contract := (parts.get? 6).getD none,
    ui_fee_receiver := (parts.get? 7).getD none,
    market := (parts.get? 8).getD none,
    initial_collateral_token := (parts.get? 9).getD none,
    swap_path := some ((List.range n).filterMap (fun i => (parts.get? (11 + i)).getD none)),
    size_delta_usd := combine_u128 (parts.get? (11 + n)) (parts.get? (12 + n)),
    initial_collateral_delta_amount := combine_u128 (parts.get? (13 + n)) (parts.get? (14 + n)),
    trigger_price := combine_u128 (parts.get? (15 + n)) (parts.get? (16 + n)),
    acceptable_price := combine_u128 (parts.get? (17 + n)) (parts.get? (18 + n)),
    execution_fee := combine_u128 (parts.get? (19 + n)) (parts.get? (20 + n)),
    callback_gas_limit := combine_u128 (parts.get? (21 + n)) (parts.get? (22 + n)),
    min_output_amount := combine_u128 (parts.get? (23 + n)) (parts.get? (24 + n)),
    updated_at_block := (parts.get? (25 + n)).bind (fun s => s.bind fromStrRadix16I64),
    is_long := (parts.get? (26 + n)).bind (fun s => s.map boolOfWord),
    is_frozen := (parts.get? (27 + n)).bind (fun s => s.map boolOfWord) }

/-- from_generic_event with every panic-capable operation threaded through
Option: none models a panic anywhere in the decode. The only panic-capable
operation in the source is the unwrap inside combine_u128. -/
def from_generic_eventP (event : GenericEvent) : Option Order :=
  let parts := dataParts event.data
  let n := swap_path_len parts
  do
    let sdu ← combine_u128P (parts.get? (11 + n)) (parts.get? (12 + n))
    let icda ← combine_u128P (parts.get? (13 + n)) (parts.get? (14 + n))
    let tp ← combine_u128P (parts.get? (15 + n)) (parts.get? (16 + n))
    let ap ← combine_u128P (parts.get? (17 + n)) (parts.get? (18 + n))
    let ef ← combine_u128P (parts.get? (19 + n)) (parts.get? (20 + n))
    let cgl ← combine_u128P (parts.get? (21 + n)) (parts.get? (22 + n))
    let moa ← combine_u128P (parts.get? (23 + n)) (parts.get? (24 + n))
    pure
      { block_number := event.block_number,
        timestamp := event.timestamp,
        transaction_hash := event.transaction_hash,
        key := (parts.get? 0).getD none,
        order_type := (parts.get? 2).bind (fun s => s.bind OrderType.from_str),
        decrease_position_swap_type := (parts.get? 3).bind (fun s => s.bind DecreasePositionSwapType.from_str),
        account := (parts.get? 4).getD none,
        receiver := (parts.get? 5).getD none,
        callback_contract := (parts.get? 6).getD none,
        ui_fee_receiver := (parts.get? 7).getD none,
        market := (parts.get? 8).getD none,
        initial_collateral_token := (parts.get? 9).getD none,
        swap_path := some ((List.range n).filterMap (fun i => (parts.get? (11 + i)).getD none)),
        size_delta_usd := sdu,
        initial_collateral_delta_amount := icda,
        trigger_price := tp,
        acceptable_price := ap,
        execution_fee := ef,
        callback_gas_limit := cgl,
        min_output_amount := moa,
        updated_at_block := (parts.get? (25 + n)).bind (fun s => s.bind fromStrRadix16I64),
        is_long := (parts.get? (26 + n)).bind (fun s => s.map boolOfWord),
        is_frozen := (parts.get? (27 + n)).bind (fun s => s.map boolOfWord) }

/-! ### Supporting lemmas -/

lemma decDigit_ofNat (m : Nat) (hm : m < 10) :
    decDigit? (Char.ofNat (m + 48)) = some m := by
  interval_cases m <;> decide

lemma stepDigit_dec (a m : Nat) (hm : m < 10) :
    stepDigit decDigit? 10 (some a) (Char.ofNat (m + 48)) = some (a * 10 + m) := by
  have h := decDigit_ofNat m hm
  simp [stepDigit, h]

lemma foldl_decDigitsRev (n : Nat) :
    (decDigitsRev n).reverse.foldl (stepDigit decDigit? 10) (some 0) = some n := by
  induction n using Nat.strong_induction_on with
  | _ n ih =>
    by_cases h : n = 0
    · subst h
      rw [decDigitsRev]
      rfl
    · rw [decDigitsRev, dif_neg h, List.reverse_cons, List.foldl_append,
        ih (n / 10) (Nat.div_lt_self (Nat.pos_of_ne_zero h) (by omega))]
      simp only [List.foldl_cons, List.foldl_nil]
      rw [stepDigit_dec (n / 10) (n % 10) (Nat.mod_lt n (by omega))]
      have : n / 10 * 10 + n % 10 = n := by omega
      rw [this]

lemma decDigitsRev_ne_nil (n : Nat) (h : n ≠ 0) : decDigitsRev n ≠ [] := by
  rw [decDigitsRev, dif_neg h]
  exact List.cons_ne_nil _ _

/-- The to_string/from_str round trip inside combine_u128 is the identity:
the unwrap can never fire. -/
lemma parseDecBig_natToDecString (n : Nat) :
    parseDecBig (natToDecString n) = some n := by
  by_cases h : n = 0
  · subst h
    decide
  · rw [natToDecString, if_neg h, parseDecBig]
    have hne : (decDigitsRev n).reverse ≠ [] := by
      intro hcon
      exact decDigitsRev_ne_nil n h (by simpa using hcon)
    rw [if_neg (by simpa [String.mk, List.isEmpty_iff] using hne)]
    exact foldl_decDigitsRev n

/-- The panic-aware combine agrees with the plain one and never panics. -/
lemma combine_u128P_eq (high low : Option (Option String)) :
    combine_u128P high low = some (combine_u128 high low) := by
  rcases high with _ | (_ | h) <;> rcases low with _ | (_ | l) <;> try rfl
  rw [combine_u128P, combine_u128]
  rcases hh : fromStrRadix16U64 h with _ | hv <;>
    rcases hl : fromStrRadix16U64 l with _ | lv <;>
      simp [hh, hl, parseDecBig_natToDecString]

/-- The panic-aware decoder agrees with the plain one: no branch of the
decode can panic. -/
lemma from_generic_eventP_eq (e : GenericEvent) :
    from_generic_eventP e = some (from_generic_event e) := by
  rw [from_generic_eventP, from_generic_event]
  simp [combine_u128P_eq, Option.bind]

lemma filterMap_range_get? {α : Type} (l : List α) (k n : Nat) :
    (List.range n).filterMap (fun i => l.get? (k + i)) = (l.drop k).take n := by
  induction n with
  | zero => simp
  | succ n ih =>
    rw [List.range_succ, List.filterMap_append, ih, List.take_succ]
    cases h : l[k + n]? <;> simp [h, List.getElem?_drop]

lemma dataParts_getD (d : String) (i : Nat) :
    ((dataParts d).get? i).getD none = (wordList d).get? i := by
  rw [dataParts, List.get?_map]
  cases (wordList d).get? i <;> rfl

/-- The swap_path field is the slice of the word list starting at index 11,
of at most the declared length. -/
lemma swap_path_slice (e : GenericEvent) :
    (from_generic_event e).swap_path =
      some (((wordList e.data).drop 11).take (swap_path_len (dataParts e.data))) := by
  rw [from_generic_event]
  simp only [dataParts_getD]
  rw [filterMap_range_get?]

lemma combine_u128_low_none (h : Option (Option String)) :
    combine_u128 h none = none := by
  rcases h with _ | (_ | h) <;> rfl

/-! ### Concrete events used by the witnesses and end-to-end claims -/

/-- A full 30-word event: order type MarketIncrease, swap_path length
word 02 (two array words at indices 11 and 12), all suffix fields present
at their shifted offsets. -/
def fullEv : GenericEvent :=
  { block_number := 100,
    timestamp := some "2024-01-01T00:00:00Z",
    transaction_hash := "0xtx",
    data := "0000000000000000000000000000000000000000000000000000000000000abc,0000000000000000000000000000000000000000000000000000000000000000,0000000000000000000000000000000000000000000000000000000000000002,0000000000000000000000000000000000000000000000000000000000000001,00000000000000000000000000000000000000000000000000000000000000a4,00000000000000000000000000000000000000000000000000000000000000a5,00000000000000000000000000000000000000000000000000000000000000a6,00000000000000000000000000000000000000000000000000000000000000a7,00000000000000000000000000000000000000000000000000000000000000a8,00000000000000000000000000000000000000000000000000000000000000a9,0000000000000000000000000000000000000000000000000000000000000002,0000000000000000000000000000000000000000000000000000000000005011,0000000000000000000000000000000000000000000000000000000000005012,0000000000000000000000000000000000000000000000000000000000000001,0000000000000000000000000000000000000000000000000000000000000000,0000000000000000000000000000000000000000000000000000000000000002,0000000000000000000000000000000000000000000000000000000000000003,0000000000000000000000000000000000000000000000000000000000000000,0000000000000000000000000000000000000000000000000000000000000123,0000000000000000000000000000000000000000000000000000000000000000,0000000000000000000000000000000000000000000000000000000000000456,0000000000000000000000000000000000000000000000000000000000000000,0000000000000000000000000000000000000000000000000000000000000789,0000000000000000000000000000000000000000000000000000000000000000,0000000000000000000000000000000000000000000000000000000000000aaa,0000000000000000000000000000000000000000000000000000000000000000,0000000000000000000000000000000000000000000000000000000000000bbb,0000000000000000000000000000000000000000000000000000000000000064,0000000000000000000000000000000000000000000000000000000000000001,0000000000000000000000000000000000000000000000000000000000000000" }

/-- fullEv truncated to 12 words: the declared swap_path length is 2 but
only the word at index 11 exists. -/
def truncEv : GenericEvent :=
  { block_number := 100,
    timestamp := some "2024-01-01T00:00:00Z",
    transaction_hash := "0xtx",
    data := "0000000000000000000000000000000000000000000000000000000000000abc,0000000000000000000000000000000000000000000000000000000000000000,0000000000000000000000000000000000000000000000000000000000000002,0000000000000000000000000000000000000000000000000000000000000001,00000000000000000000000000000000000000000000000000000000000000a4,00000000000000000000000000000000000000000000000000000000000000a5,00000000000000000000000000000000000000000000000000000000000000a6,00000000000000000000000000000000000000000000000000000000000000a7,00000000000000000000000000000000000000000000000000000000000000a8,00000000000000000000000000000000000000000000000000000000000000a9,0000000000000000000000000000000000000000000000000000000000000002,0000000000000000000000000000000000000000000000000000000000005011" }

/-- 23-word event whose length word at index 10 ends in 10: hexadecimal
value 16, decimal value 10. -/
def c2ev : GenericEvent :=
  { block_number := 7,
    timestamp := none,
    transaction_hash := "0xc2",
    data := "0000000000000000000000000000000000000000000000000000000000000abc,0000000000000000000000000000000000000000000000000000000000000abc,0000000000000000000000000000000000000000000000000000000000000abc,0000000000000000000000000000000000000000000000000000000000000abc,0000000000000000000000000000000000000000000000000000000000000abc,0000000000000000000000000000000000000000000000000000000000000abc,0000000000000000000000000000000000000000000000000000000000000abc,0000000000000000000000000000000000000000000000000000000000000abc,0000000000000000000000000000000000000000000000000000000000000abc,0000000000000000000000000000000000000000000000000000000000000abc,0000000000000000000000000000000000000000000000000000000000000010,0000000000000000000000000000000000000000000000000000000000000001,0000000000000000000000000000000000000000000000000000000000000002,0000000000000000000000000000000000000000000000000000000000000003,0000000000000000000000000000000000000000000000000000000000000004,0000000000000000000000000000000000000000000000000000000000000005,0000000000000000000000000000000000000000000000000000000000000006,0000000000000000000000000000000000000000000000000000000000000007,0000000000000000000000000000000000000000000000000000000000000008,0000000000000000000000000000000000000000000000000000000000000009,0000000000000000000000000000000000000000000000000000000000000010,0000000000000000000000000000000000000000000000000000000000000011,0000000000000000000000000000000000000000000000000000000000000012" }

/-- The end-to-end event of the spec: order type word ending 0002, swap
type word 0, length word 0, size-delta high word 1 and low word 0. -/
def c8ev : GenericEvent :=
  { block_number := 42,
    timestamp := some "t",
    transaction_hash := "0xc8",
    data := "0000000000000000000000000000000000000000000000000000000000000abc,00000000000000000000000000000000000000000000000000000000deadbeef,0000000000000000000000000000000000000000000000000000000000000002,0000000000000000000000000000000000000000000000000000000000000000,000000000000000000000000000000000000000000000000000000000000aaa1,000000000000000000000000000000000000000000000000000000000000aaa2,000000000000000000000000000000000000000000000000000000000000aaa3,000000000000000000000000000000000000000000000000000000000000aaa4,000000000000000000000000000000000000000000000000000000000000aaa5,000000000000000000000000000000000000000000000000000000000000aaa6,0000000000000000000000000000000000000000000000000000000000000000,0000000000000000000000000000000000000000000000000000000000000001,0000000000000000000000000000000000000000000000000000000000000000" }

/-- A one-word payload, shorter than every fixed-field index past 0. -/
def shortEv : GenericEvent :=
  { block_number := 1,
    timestamp := none,
    transaction_hash := "0xs",
    data := "ab" }

/-- The length word whose hexadecimal value is 16 and decimal value 10. -/
def hexLenWord : String :=
  "0000000000000000000000000000000000000000000000000000000000000010"

/-- The eight canonical order-type selector words, in variant order. -/
def orderTypeWords : List String :=
  ["0000000000000000000000000000000000000000000000000000000000000000", "0000000000000000000000000000000000000000000000000000000000000001", "0000000000000000000000000000000000000000000000000000000000000002", "0000000000000000000000000000000000000000000000000000000000000003", "0000000000000000000000000000000000000000000000000000000000000004", "0000000000000000000000000000000000000000000000000000000000000005", "0000000000000000000000000000000000000000000000000000000000000006", "0000000000000000000000000000000000000000000000000000000000000007"]

/-- The three canonical decrease-position-swap-type selector words. -/
def decreaseSwapWords : List String :=
  ["0000000000000000000000000000000000000000000000000000000000000000", "0000000000000000000000000000000000000000000000000000000000000001", "0000000000000000000000000000000000000000000000000000000000000002"]

/-! ### Claims -/

/-- C1: for every raw event whose swap_path length word at data index 10
decodes to n, the decoder consumes the words at indices 11 through 10+n as
the swap_path array (exactly n of them when the payload reaches that far),
and reads every fixed-suffix field, size_delta_usd through is_frozen, at
its nominal index plus n; a length of 0 yields the empty array and every
suffix field at its base offset. -/
theorem C1_variable_length_offsets (e : GenericEvent) (n : Nat)
    (hn : swap_path_len (dataParts e.data) = n) :
    (from_generic_event e).swap_path = some (((wordList e.data).drop 11).take n) ∧
    (11 + n ≤ (wordList e.data).length →
      (((wordList e.data).drop 11).take n).length = n) ∧
    (from_generic_event e).size_delta_usd =
      combine_u128 ((dataParts e.data).get? (11 + n)) ((dataParts e.data).get? (12 + n)) ∧
    (from_generic_event e).initial_collateral_delta_amount =
      combine_u128 ((dataParts e.data).get? (13 + n)) ((dataParts e.data).get? (14 + n)) ∧
    (from_generic_event e).trigger_price =
      combine_u128 ((dataParts e.data).get? (15 + n)) ((dataParts e.data).get? (16 + n)) ∧
    (from_generic_event e).acceptable_price =
      combine_u128 ((dataParts e.data).get? (17 + n)) ((dataParts e.data).get? (18 + n)) ∧
    (from_generic_event e).execution_fee =
      combine_u128 ((dataParts e.data).get? (19 + n)) ((dataParts e.data).get? (20 + n)) ∧
    (from_generic_event e).callback_gas_limit =
      combine_u128 ((dataParts e.data).get? (21 + n)) ((dataParts e.data).get? (22 + n)) ∧
    (from_generic_event e).min_output_amount =
      combine_u128 ((dataParts e.data).get? (23 + n)) ((dataParts e.data).get? (24 + n)) ∧
    (from_generic_event e).updated_at_block =
      ((dataParts e.data).get? (25 + n)).bind (fun s => s.bind fromStrRadix16I64) ∧
    (from_generic_event e).is_long =
      ((dataParts e.data).get? (26 + n)).bind (fun s => s.map boolOfWord) ∧
    (from_generic_event e).is_frozen =
      ((dataParts e.data).get? (27 + n)).bind (fun s => s.map boolOfWord) ∧
    (n = 0 → (from_generic_event e).swap_path = some []) := by
  subst hn
  refine ⟨swap_path_slice e, ?_, rfl, rfl, rfl, rfl, rfl, rfl, rfl, rfl, rfl, rfl, ?_⟩
  · intro hlen
    rw [List.length_take, List.length_drop]
    omega
  · intro h0
    rw [swap_path_slice e, h0, List.take_zero]

/-- C1 witness: on the 30-word event with length word 02, the array is the
two words at indices 11 and 12 and size_delta_usd is read at 13/14. -/
theorem C1_witness :
    swap_path_len (dataParts fullEv.data) = 2 ∧
    (from_generic_event fullEv).swap_path =
      some (((wordList fullEv.data).drop 11).take 2) ∧
    (from_generic_event fullEv).size_delta_usd =
      combine_u128 ((dataParts fullEv.data).get? 13) ((dataParts fullEv.data).get? 14) := by
  have h := C1_variable_length_offsets fullEv 2 (by decide)
  exact ⟨by decide, h.1, h.2.2.1⟩

/-- C2 (code bug): the source parses the swap_path length word with the
decimal usize parser while every other numeric word in the same decoder is
parsed radix-16; on the length word ending in 10 (hexadecimal value 16) the
decoder consumes 10 array words, not 16. -/
theorem C2_length_word_parsed_decimal :
    fromStrRadix16U64 hexLenWord = some 16 ∧
    parseUsize hexLenWord = some 10 ∧
    swap_path_len (dataParts c2ev.data) = 10 ∧
    ((from_generic_event c2ev).swap_path).map List.length = some 10 := by
  decide

/-- C3: combine_u128 reconstructs (high << 64) + low exactly whenever both
words parse as unsigned 64-bit hexadecimal integers, is absent when either
word fails to parse, and maps the high word 1 with the low word 0 to
exactly 2 ^ 64. -/
theorem C3_combine_u128_reconstruction (h l : String) (hv lv : Nat)
    (hh : fromStrRadix16U64 h = some hv) (hl : fromStrRadix16U64 l = some lv) :
    combine_u128 (some (some h)) (some (some l)) = some (hv * 2 ^ 64 + lv) ∧
    (∀ h' l' : String, fromStrRadix16U64 h' = none →
      combine_u128 (some (some h')) (some (some l')) = none) ∧
    (∀ h' l' : String, fromStrRadix16U64 l' = none →
      combine_u128 (some (some h')) (some (some l')) = none) ∧
    combine_u128 (some (some oneWord)) (some (some zeroWord)) = some (2 ^ 64) := by
  refine ⟨?_, ?_, ?_, by decide⟩
  · simp [combine_u128, hh, hl]
  · intro h' l' hnone
    simp [combine_u128, hnone]
  · intro h' l' hnone
    rcases hfirst : fromStrRadix16U64 h' with _ | hv' <;>
      simp [combine_u128, hfirst, hnone]

/-- C3 witness: the pair (ff, 1) reconstructs to 255 * 2 ^ 64 + 1. -/
theorem C3_witness :
    combine_u128 (some (some "ff")) (some (some "1")) = some (255 * 2 ^ 64 + 1) :=
  (C3_combine_u128_reconstruction "ff" "1" 255 1 (by decide) (by decide)).1

/-- C4: decode is total: for every raw event the panic-aware decoder
returns the very record the plain decoder computes, so no branch of the
decode, in particular the unwrap inside the 128-bit reconstruction, can
panic. -/
theorem C4_decode_total_no_panic (e : GenericEvent) :
    from_generic_eventP e = some (from_generic_event e) :=
  from_generic_eventP_eq e

/-- C5: when the payload is too short, every scalar field whose computed
word index has no corresponding word decodes to absent (for the two-word
128-bit fields: whenever either word is missing), and the decode still
cannot panic; no shortfall aborts the record. -/
theorem C5_shortfall_absent_fields (e : GenericEvent) :
    ((dataParts e.data).length ≤ 0 → (from_generic_event e).key = none) ∧
    ((dataParts e.data).length ≤ 2 → (from_generic_event e).order_type = none) ∧
    ((dataParts e.data).length ≤ 3 →
      (from_generic_event e).decrease_position_swap_type = none) ∧
    ((dataParts e.data).length ≤ 4 → (from_generic_event e).account = none) ∧
    ((dataParts e.data).length ≤ 5 → (from_generic_event e).receiver = none) ∧
    ((dataParts e.data).length ≤ 6 → (from_generic_event e).callback_contract = none) ∧
    ((dataParts e.data).length ≤ 7 → (from_generic_event e).ui_fee_receiver = none) ∧
    ((dataParts e.data).length ≤ 8 → (from_generic_event e).market = none) ∧
    ((dataParts e.data).length ≤ 9 →
      (from_generic_event e).initial_collateral_token = none) ∧
    ((dataParts e.data).length ≤ 12 + swap_path_len (dataParts e.data) →
      (from_generic_event e).size_delta_usd = none) ∧
    ((dataParts e.data).length ≤ 14 + swap_path_len (dataParts e.data) →
      (from_generic_event e).initial_collateral_delta_amount = none) ∧
    ((dataParts e.data).length ≤ 16 + swap_path_len (dataParts e.data) →
      (from_generic_event e).trigger_price = none) ∧
    ((dataParts e.data).length ≤ 18 + swap_path_len (dataParts e.data) →
      (from_generic_event e).acceptable_price = none) ∧
    ((dataParts e.data).length ≤ 20 + swap_path_len (dataParts e.data) →
      (from_generic_event e).execution_fee = none) ∧
    ((dataParts e.data).length ≤ 22 + swap_path_len (dataParts e.data) →
      (from_generic_event e).callback_gas_limit = none) ∧
    ((dataParts e.data).length ≤ 24 + swap_path_len (dataParts e.data) →
      (from_generic_event e).min_output_amount = none) ∧
    ((dataParts e.data).length ≤ 25 + swap_path_len (dataParts e.data) →
      (from_generic_event e).updated_at_block = none) ∧
    ((dataParts e.data).length ≤ 26 + swap_path_len (dataParts e.data) →
      (from_generic_event e).is_long = none) ∧
    ((dataParts e.data).length ≤ 27 + swap_path_len (dataParts e.data) →
      (from_generic_event e).is_frozen = none) ∧
    (from_generic_eventP e).isSome := by
  have hget : ∀ k, (dataParts e.data).length ≤ k → (dataParts e.data).get? k = none :=
    fun k hk => List.get?_eq_none.mpr hk
  refine ⟨?_, ?_, ?_, ?_, ?_, ?_, ?_, ?_, ?_, ?_, ?_, ?_, ?_, ?_, ?_, ?_, ?_, ?_, ?_, ?_⟩
  · intro hl
    show ((dataParts e.data).get? 0).getD none = none
    rw [hget 0 hl]
    rfl
  · intro hl
    show ((dataParts e.data).get? 2).bind (fun s => s.bind OrderType.from_str) = none
    rw [hget 2 hl]
    rfl
  · intro hl
    show ((dataParts e.data).get? 3).bind
        (fun s => s.bind DecreasePositionSwapType.from_str) = none
    rw [hget 3 hl]
    rfl
  · intro hl
    show ((dataParts e.data).get? 4).getD none = none
    rw [hget 4 hl]
    rfl
  · intro hl
    show ((dataParts e.data).get? 5).getD none = none
    rw [hget 5 hl]
    rfl
  · intro hl
    show ((dataParts e.data).get? 6).getD none = none
    rw [hget 6 hl]
    rfl
  · intro hl
    show ((dataParts e.data).get? 7).getD none = none
    rw [hget 7 hl]
    rfl
  · intro hl
    show ((dataParts e.data).get? 8).getD none = none
    rw [hget 8 hl]
    rfl
  · intro hl
    show ((dataParts e.data).get? 9).getD none = none
    rw [hget 9 hl]
    rfl
  · intro hl
    show combine_u128
        ((dataParts e.data).get? (11 + swap_path_len (dataParts e.data)))
        ((dataParts e.data).get? (12 + swap_path_len (dataParts e.data))) = none
    rw [hget _ hl, combine_u128_low_none]
  · intro hl
    show combine_u128
        ((dataParts e.data).get? (13 + swap_path_len (dataParts e.data)))
        ((dataParts e.data).get? (14 + swap_path_len (dataParts e.data))) = none
    rw [hget _ hl, combine_u128_low_none]
  · intro hl
    show combine_u128
        ((dataParts e.data).get? (15 + swap_path_len (dataParts e.data)))
        ((dataParts e.data).get? (16 + swap_path_len (dataParts e.data))) = none
    rw [hget _ hl, combine_u128_low_none]
  · intro hl
    show combine_u128
        ((dataParts e.data).get? (17 + swap_path_len (dataParts e.data)))
        ((dataParts e.data).get? (18 + swap_path_len (dataParts e.data))) = none
    rw [hget _ hl, combine_u128_low_none]
  · intro hl
    show combine_u128
        ((dataParts e.data).get? (19 + swap_path_len (dataParts e.data)))
        ((dataParts e.data).get? (20 + swap_path_len (dataParts e.data))) = none
    rw [hget _ hl, combine_u128_low_none]
  · intro hl
    show combine_u128
        ((dataParts e.data).get? (21 + swap_path_len (dataParts e.data)))
        ((dataParts e.data).get? (22 + swap_path_len (dataParts e.data))) = none
    rw [hget _ hl, combine_u128_low_none]
  · intro hl
    show combine_u128
        ((dataParts e.data).get? (23 + swap_path_len (dataParts e.data)))
        ((dataParts e.data).get? (24 + swap_path_len (dataParts e.data))) = none
    rw [hget _ hl, combine_u128_low_none]
  · intro hl
    show ((dataParts e.data).get? (25 + swap_path_len (dataParts e.data))).bind
        (fun s => s.bind fromStrRadix16I64) = none
    rw [hget _ hl]
    rfl
  · intro hl
    show ((dataParts e.data).get? (26 + swap_path_len (dataParts e.data))).bind
        (fun s => s.map boolOfWord) = none
    rw [hget _ hl]
    rfl
  · intro hl
    show ((dataParts e.data).get? (27 + swap_path_len (dataParts e.data))).bind
        (fun s => s.map boolOfWord) = none
    rw [hget _ hl]
    rfl
  · rw [from_generic_eventP_eq e]
    rfl

/-- C5 witness: the one-word payload leaves order_type and size_delta_usd
absent, and the decode still returns a record. -/
theorem C5_witness :
    (from_generic_event shortEv).order_type = none ∧
    (from_generic_event shortEv).size_delta_usd = none := by
  have h := C5_shortfall_absent_fields shortEv
  exact ⟨h.2.1 (by decide), h.2.2.2.2.2.2.2.2.2.1 (by decide)⟩

/-- C6: selector resolution is pure, total and optional: the word ending
0007 resolves to Liquidation, every listed word of both tables resolves to
its variant, and every unmapped word resolves to absent. -/
theorem C6_selector_resolution :
    OrderType.from_str
      "0000000000000000000000000000000000000000000000000000000000000007" =
      some OrderType.Liquidation ∧
    (orderTypeWords.map OrderType.from_str =
      [some OrderType.MarketSwap, some OrderType.LimitSwap,
       some OrderType.MarketIncrease, some OrderType.LimitIncrease,
       some OrderType.MarketDecrease, some OrderType.LimitDecrease,
       some OrderType.StopLossDecrease, some OrderType.Liquidation]) ∧
    (decreaseSwapWords.map DecreasePositionSwapType.from_str =
      [some DecreasePositionSwapType.NoSwap,
       some DecreasePositionSwapType.SwapPnlTokenToCollateralToken,
       some DecreasePositionSwapType.SwapCollateralTokenToPnlToken]) ∧
    (∀ s : String, s ∉ orderTypeWords → OrderType.from_str s = none) ∧
    (∀ s : String, s ∉ decreaseSwapWords → DecreasePositionSwapType.from_str s = none) := by
  refine ⟨by decide, by decide, by decide, ?_, ?_⟩
  · intro s hs
    simp only [orderTypeWords, List.mem_cons, List.not_mem_nil, or_false, not_or] at hs
    obtain ⟨h0, h1, h2, h3, h4, h5, h6, h7⟩ := hs
    simp only [OrderType.from_str, if_neg h0, if_neg h1, if_neg h2, if_neg h3,
      if_neg h4, if_neg h5, if_neg h6, if_neg h7]
  · intro s hs
    simp only [decreaseSwapWords, List.mem_cons, List.not_mem_nil, or_false, not_or] at hs
    obtain ⟨h0, h1, h2⟩ := hs
    simp only [DecreasePositionSwapType.from_str, if_neg h0, if_neg h1, if_neg h2]

/-- C6 witness: the unmapped word beef resolves to absent in both tables. -/
theorem C6_witness :
    OrderType.from_str "beef" = none ∧
    DecreasePositionSwapType.from_str "beef" = none :=
  ⟨C6_selector_resolution.2.2.2.1 "beef" (by decide),
   C6_selector_resolution.2.2.2.2 "beef" (by decide)⟩

/-- C7: a present boolean word decodes through boolOfWord, where the
all-zero word is false, the word encoding 1 is true, and every other word
is false, never an error. -/
theorem C7_boolean_decode (e : GenericEvent) (w : String) :
    ((dataParts e.data).get? (26 + swap_path_len (dataParts e.data)) = some (some w) →
      (from_generic_event e).is_long = some (boolOfWord w)) ∧
    ((dataParts e.data).get? (27 + swap_path_len (dataParts e.data)) = some (some w) →
      (from_generic_event e).is_frozen = some (boolOfWord w)) ∧
    boolOfWord zeroWord = false ∧
    boolOfWord oneWord = true ∧
    (w ≠ zeroWord → w ≠ oneWord → boolOfWord w = false) := by
  refine ⟨?_, ?_, by decide, by decide, ?_⟩
  · intro hw
    show ((dataParts e.data).get? (26 + swap_path_len (dataParts e.data))).bind
        (fun s => s.map boolOfWord) = some (boolOfWord w)
    rw [hw]
    rfl
  · intro hw
    show ((dataParts e.data).get? (27 + swap_path_len (dataParts e.data))).bind
        (fun s => s.map boolOfWord) = some (boolOfWord w)
    rw [hw]
    rfl
  · intro h1 h2
    rw [boolOfWord, if_neg h1, if_neg h2]

/-- C7 witness: on the 30-word event the is_long word (the word encoding 1,
at index 28 = 26 + 2) decodes to true and the is_frozen word (the all-zero
word at index 29) decodes to false. -/
theorem C7_witness :
    (from_generic_event fullEv).is_long = some true ∧
    (from_generic_event fullEv).is_frozen = some false :=
  ⟨((C7_boolean_decode fullEv oneWord).1 (by decide)).trans (by decide),
   ((C7_boolean_decode fullEv zeroWord).2.1 (by decide)).trans (by decide)⟩

/-- C8: on the concrete event with order-type word ending 0002, length
word 0, size-delta high word 1 and low word 0, the decoded record has
order_type MarketIncrease, an empty swap_path and size_delta_usd 2 ^ 64. -/
theorem C8_end_to_end :
    (from_generic_event c8ev).order_type = some OrderType.MarketIncrease ∧
    (from_generic_event c8ev).swap_path = some [] ∧
    (from_generic_event c8ev).size_delta_usd = some (2 ^ 64) := by
  decide

/-- C9: decode is deterministic: equal raw events decode to equal typed
records. -/
theorem C9_decode_deterministic (e1 e2 : GenericEvent) (h : e1 = e2) :
    from_generic_event e1 = from_generic_event e2 := by
  rw [h]

/-- C9 witness: decoding the sample event twice yields the same record. -/
theorem C9_witness : from_generic_event c8ev = from_generic_event c8ev :=
  C9_decode_deterministic c8ev c8ev rfl

/-- C10: swap_path is always present (some), holding exactly the slice of
words starting at index 11 of at most the declared length; its length is
the minimum of the declared length and the words remaining, so a payload
ending inside a nonempty declared array yields strictly fewer elements
than declared, while the suffix offsets still use the declared length. -/
theorem C10_swap_path_always_present (e : GenericEvent) :
    (from_generic_event e).swap_path =
      some (((wordList e.data).drop 11).take (swap_path_len (dataParts e.data))) ∧
    (∀ l, (from_generic_event e).swap_path = some l →
      l.length =
        min (swap_path_len (dataParts e.data)) ((wordList e.data).length - 11)) ∧
    ((wordList e.data).length < 11 + swap_path_len (dataParts e.data) →
      0 < swap_path_len (dataParts e.data) →
      ∀ l, (from_generic_event e).swap_path = some l →
        l.length < swap_path_len (dataParts e.data)) := by
  refine ⟨swap_path_slice e, ?_, ?_⟩
  · intro l hl
    rw [swap_path_slice e] at hl
    injection hl with hl
    subst hl
    rw [List.length_take, List.length_drop]
  · intro hshort hpos l hl
    rw [swap_path_slice e] at hl
    injection hl with hl
    subst hl
    rw [List.length_take, List.length_drop]
    omega

/-- C10 witness: the truncated event declares 2 array words but carries
only 1; swap_path is still present and holds fewer elements than the
declared length. -/
theorem C10_witness :
    (from_generic_event truncEv).swap_path =
      some (((wordList truncEv.data).drop 11).take (swap_path_len (dataParts truncEv.data))) ∧
    (((wordList truncEv.data).drop 11).take (swap_path_len (dataParts truncEv.data))).length <
      swap_path_len (dataParts truncEv.data) := by
  have h := C10_swap_path_always_present truncEv
  exact ⟨h.1, h.2.2 (by decide) (by decide) _ h.1⟩
